import Mathlib

/-!
Shallow embedding of `src/features/helper/dbtInterface.ts` from the
vscode-sqlfluff extension: the `DbtInterface` HTTP client that builds
lint/format URLs, performs a health probe against a local dbt-core-interface
server, issues POST requests with timeout-driven abort, and maps failures to
structured error payloads.

Modelling conventions:
* Machine effects (timers, fetch calls, output-channel writes) are recorded in
  an explicit event trace (`Event`).
* The behaviour of the network during one invocation is an oracle (`Net`)
  giving the outcome of the GET to `/health` and of the POST: either a thrown
  error (`Except.error`, covering network failure and timeout-driven abort)
  or a resolved `Response` carrying an HTTP status and the outcome of
  `response.json()`.
* A computation that can let a JavaScript exception escape returns
  `Except String α`: `Except.error e` means the promise rejected with `e`.
* `Configuration.dbtInterfaceHost` / `Configuration.dbtInterfacePort` are
  external collaborators (not in this repository's source file); they are
  modelled as a `Config` record passed in, looked up fresh at each URL build.
-/

/-- Error codes of the dbt-core-interface protocol, from the
`DbtInterfaceErrorCode` numeric enum. -/
inductive DbtInterfaceErrorCode where
  | FailedToReachServer
  | CompileSqlFailure
  | ExecuteSqlFailure
  | ProjectParseFailure
  | UnlintableUnfixable
deriving DecidableEq

/-- Numeric value of each member of the TypeScript enum. -/
def DbtInterfaceErrorCode.toInt : DbtInterfaceErrorCode → Int
  | .FailedToReachServer => -1
  | .CompileSqlFailure => 1
  | .ExecuteSqlFailure => 2
  | .ProjectParseFailure => 3
  | .UnlintableUnfixable => 0

/-- Values of the `data` index map of an error container
(`{ [index: string]: string | number }`). -/
inductive DbtDatumValue where
  | str (s : String)
  | num (n : Int)
deriving DecidableEq

/-- The anonymous object type of the `error` field of
`DbtInterfaceErrorContainer`. -/
structure DbtInterfaceErrorInfo where
  code : DbtInterfaceErrorCode
  message : String
  data : List (String × DbtDatumValue)
deriving DecidableEq

/-- The `DbtInterfaceErrorContainer` interface. -/
structure DbtInterfaceErrorContainer where
  error : DbtInterfaceErrorInfo
deriving DecidableEq

/-- The module-level constant `projectNotRegisteredError`. -/
def projectNotRegisteredError : DbtInterfaceErrorContainer :=
  { error :=
    { code := DbtInterfaceErrorCode.CompileSqlFailure
      message := "Sqlfluff currently unavailable. Check that your project does not contain compilation errors."
      data := [("error", DbtDatumValue.str "")] } }

/-- JSON values, used for the parsed body that `response.json()` yields. -/
inductive Json where
  | null
  | bool (b : Bool)
  | num (n : Int)
  | str (s : String)
  | arr (elems : List Json)
  | obj (fields : List (String × Json))

/-- External configuration collaborator: the values returned by
`Configuration.dbtInterfaceHost()` and `Configuration.dbtInterfacePort()`. -/
structure Config where
  host : String
  port : Nat

/-- The `http://<host>:<port>` base shared by every URL the client builds. -/
def serverAddress (cfg : Config) : String :=
  "http://" ++ cfg.host ++ ":" ++ toString cfg.port

/-- A node-fetch `Response` as consumed by this client: its HTTP status and
the outcome of `await response.json()` (which rejects when the body is not
valid JSON). -/
structure Response where
  status : Nat
  body : Except String Json

/-- Oracle for the network behaviour of one invocation: the outcome of the
GET to `/health` and the outcome of the POST to the lint/format URL.
`Except.error` is a thrown fetch error (network failure or abort fired by
the cancellation timer). -/
structure Net where
  healthOutcome : Except String Response
  postOutcome : Except String Response

/-- Observable effects of one invocation: timers set and cleared (identified
by a numeric handle), fetch calls issued, and lines appended to the shared
output channel. -/
inductive Event where
  | timerSet (id ms : Nat)
  | timerCleared (id : Nat)
  | fetchGET (url : String)
  | fetchPOST (url : String) (body : Option String)
  | logLine (line : String)
deriving DecidableEq

/-- Number of `timerSet` events with handle `i` in a trace. -/
def countTimerSet (i : Nat) : List Event → Nat
  | [] => 0
  | Event.timerSet j _ :: rest => (if j = i then 1 else 0) + countTimerSet i rest
  | _ :: rest => countTimerSet i rest

/-- Number of `timerCleared` events with handle `i` in a trace. -/
def countTimerCleared (i : Nat) : List Event → Nat
  | [] => 0
  | Event.timerCleared j :: rest => (if j = i then 1 else 0) + countTimerCleared i rest
  | _ :: rest => countTimerCleared i rest

/-- Number of POST requests issued in a trace. -/
def countPOST : List Event → Nat
  | [] => 0
  | Event.fetchPOST _ _ :: rest => 1 + countPOST rest
  | _ :: rest => countPOST rest

/-- Whether any line was written to the output channel in a trace. -/
def hasLog : List Event → Bool
  | [] => false
  | Event.logLine _ :: _ => true
  | _ :: rest => hasLog rest

/-- Modelled from the spec: `Utilities.appendHyphenatedLine` (an external
collaborator not in this source file) appends one literal delimiter line to
the shared output channel. -/
def hyphenatedLine : String := "--------------------"

/-- The `DbtInterface` class: its three private fields, set by the
constructor. -/
structure DbtInterface where
  sql : Option String
  sql_path : Option String
  extra_config_path : String

/-- TypeScript template-literal interpolation of a possibly-undefined string:
`undefined` is rendered as the literal text "undefined". -/
def interpolate : Option String → String
  | none => "undefined"
  | some s => s

/-- The `getLintURL` method: path-based URL first, overwritten by the bare
`/lint?` form when SQL text is set, then `&extra_config_path=` appended when
the extra-config path is non-empty (truthy). -/
def DbtInterface.getLintURL (self : DbtInterface) (cfg : Config) : String :=
  let url := serverAddress cfg ++ "/lint?sql_path=" ++ interpolate self.sql_path
  let url := if self.sql.isSome then serverAddress cfg ++ "/lint?" else url
  if self.extra_config_path = "" then url
  else url ++ "&extra_config_path=" ++ self.extra_config_path

/-- The `getFormatURL` method: same shape as `getLintURL` with the `/format`
endpoint. -/
def DbtInterface.getFormatURL (self : DbtInterface) (cfg : Config) : String :=
  let url := serverAddress cfg ++ "/format?sql_path=" ++ interpolate self.sql_path
  let url := if self.sql.isSome then serverAddress cfg ++ "/format?" else url
  if self.extra_config_path = "" then url
  else url ++ "&extra_config_path=" ++ self.extra_config_path

/-- Hex digit used by percent-encoding (uppercase, as JavaScript produces). -/
def uriHexDigit (n : Nat) : Char :=
  if n < 10 then Char.ofNat (48 + n) else Char.ofNat (55 + n)

/-- Percent-encoding of one byte. -/
def percentByte (b : Nat) : String :=
  String.mk [Char.ofNat 37, uriHexDigit (b / 16), uriHexDigit (b % 16)]

/-- UTF-8 byte sequence of a character. -/
def utf8Bytes (c : Char) : List Nat :=
  let n := c.toNat
  if n < 128 then [n]
  else if n < 2048 then [192 + n / 64, 128 + n % 64]
  else if n < 65536 then [224 + n / 4096, 128 + (n / 64) % 64, 128 + n % 64]
  else [240 + n / 262144, 128 + (n / 4096) % 64, 128 + (n / 64) % 64, 128 + n % 64]

/-- Characters that JavaScript `encodeURI` leaves unescaped. -/
def uriUnescaped (c : Char) : Bool :=
  c.isAlpha || c.isDigit || "-_.!~*();/?:@&=+$,#".contains c || c == Char.ofNat 39

/-- Encoding of one character under JavaScript `encodeURI`. -/
def encodeURIChar (c : Char) : String :=
  if uriUnescaped c then String.singleton c
  else String.join ((utf8Bytes c).map percentByte)

/-- JavaScript `encodeURI`, applied to the URL before the POST is issued. -/
def encodeURI (s : String) : String :=
  String.join (s.toList.map encodeURIChar)

/-- Default value of the `timeout` parameter of `lint` and `format`. -/
def defaultTimeout : Nat := 25000

/-- The host-and-port hint placed in the `data.error` field of the local
`failedToReachServerError` payload built by `lint` and `format`. -/
def serverHint (cfg : Config) : String :=
  "Is the server listening on the " ++ serverAddress cfg ++ " address?"

/-- The `failedToReachServerError` payload that `lint` and `format` build
at the top of each call from the current configuration. -/
def failedToReachServerError (cfg : Config) : DbtInterfaceErrorContainer :=
  { error :=
    { code := DbtInterfaceErrorCode.FailedToReachServer
      message := "Query failed to reach dbt sync server."
      data := [("error", DbtDatumValue.str (serverHint cfg))] } }

/-- The `healthCheck` method. It sets a 1000 ms abort timer (handle `tid`),
issues the GET to `/health`, returns `true` on status 200 and `false`
otherwise; the catch block turns any thrown error into `false`, and the
`finally` block clears the timer on every path. -/
def DbtInterface.healthCheck (_self : DbtInterface) (cfg : Config) (net : Net)
    (tid : Nat) : Except String Bool × List Event :=
  let pre := [Event.timerSet tid 1000, Event.fetchGET (serverAddress cfg ++ "/health")]
  match net.healthOutcome with
  | Except.error _e => (Except.ok false, pre ++ [Event.timerCleared tid])
  | Except.ok response =>
    if response.status = 200 then (Except.ok true, pre ++ [Event.timerCleared tid])
    else (Except.ok false, pre ++ [Event.timerCleared tid])

/-- The possible values of a resolved `lint`/`format` call: one of the two
locally built error containers, or the JSON-parsed response body returned
as-is (typed `T`, unvalidated). -/
inductive ServerReply where
  | errorContainer (e : DbtInterfaceErrorContainer)
  | parsed (j : Json)

/-- The `lint` method. Health check first (timer handle 0); when unhealthy,
three log lines and the fixed `projectNotRegisteredError`, no POST. When
healthy: abort timer (handle 1) for `timeout` ms, POST to the encoded lint
URL with `this.sql` as body; a thrown fetch error logs five lines, clears
the timer and yields `failedToReachServerError`; on success the timer is
cleared and `response.json()` is awaited outside any try/catch, so a body
that fails to parse rejects the whole call. -/
def DbtInterface.lint (self : DbtInterface) (cfg : Config) (net : Net)
    (timeout : Nat) : Except String ServerReply × List Event :=
  match self.healthCheck cfg net 0 with
  | (Except.error e, ev) => (Except.error e, ev)
  | (Except.ok healthy, ev) =>
    if healthy = false then
      (Except.ok (ServerReply.errorContainer projectNotRegisteredError),
       ev ++ [Event.logLine hyphenatedLine,
              Event.logLine "Unhealthy dbt project:",
              Event.logLine hyphenatedLine])
    else
      let ev := ev ++ [Event.timerSet 1 timeout,
                       Event.fetchPOST (encodeURI (self.getLintURL cfg)) self.sql]
      match net.postOutcome with
      | Except.error err =>
        (Except.ok (ServerReply.errorContainer (failedToReachServerError cfg)),
         ev ++ [Event.logLine hyphenatedLine,
                Event.logLine "Raw dbt-core-interface /lint error response:",
                Event.logLine hyphenatedLine,
                Event.logLine err,
                Event.logLine hyphenatedLine,
                Event.timerCleared 1])
      | Except.ok response =>
        let ev := ev ++ [Event.timerCleared 1]
        match response.body with
        | Except.error e => (Except.error e, ev)
        | Except.ok j => (Except.ok (ServerReply.parsed j), ev)

/-- The `format` method: identical control flow to `lint` with the format
URL and the `/format` log label. -/
def DbtInterface.format (self : DbtInterface) (cfg : Config) (net : Net)
    (timeout : Nat) : Except String ServerReply × List Event :=
  match self.healthCheck cfg net 0 with
  | (Except.error e, ev) => (Except.error e, ev)
  | (Except.ok healthy, ev) =>
    if healthy = false then
      (Except.ok (ServerReply.errorContainer projectNotRegisteredError),
       ev ++ [Event.logLine hyphenatedLine,
              Event.logLine "Unhealthy dbt project:",
              Event.logLine hyphenatedLine])
    else
      let ev := ev ++ [Event.timerSet 1 timeout,
                       Event.fetchPOST (encodeURI (self.getFormatURL cfg)) self.sql]
      match net.postOutcome with
      | Except.error err =>
        (Except.ok (ServerReply.errorContainer (failedToReachServerError cfg)),
         ev ++ [Event.logLine hyphenatedLine,
                Event.logLine "Raw dbt-core-interface /format error response:",
                Event.logLine hyphenatedLine,
                Event.logLine err,
                Event.logLine hyphenatedLine,
                Event.timerCleared 1])
      | Except.ok response =>
        let ev := ev ++ [Event.timerCleared 1]
        match response.body with
        | Except.error e => (Except.error e, ev)
        | Except.ok j => (Except.ok (ServerReply.parsed j), ev)

/-- Substring test: does `needle` occur inside `hay`? -/
def strContains (hay needle : String) : Bool :=
  decide (needle.toList <:+: hay.toList)

/-- Suffix test: does `s` end with `suffix`? -/
def strEndsWith (s suffix : String) : Bool :=
  decide (suffix.toList <:+ s.toList)

/-- Concrete configuration used for concrete evaluations: the extension's
default dbt-interface host and port. -/
def cfg0 : Config := { host := "localhost", port := 8581 }

/-- Concrete client instance in SQL-text mode. -/
def dbt0 : DbtInterface := { sql := some "select 1", sql_path := none, extra_config_path := "" }

/-- Healthy response carrying the JSON body `{"result":"ok"}`. -/
def okResultResponse : Response :=
  { status := 200, body := Except.ok (Json.obj [("result", Json.str "ok")]) }

/-- Network behaviour: both the health GET and the POST succeed, the POST
body being `{"result":"ok"}`. -/
def netOK : Net :=
  { healthOutcome := Except.ok { status := 200, body := Except.ok Json.null }
    postOutcome := Except.ok okResultResponse }

/-- Network behaviour: every fetch rejects (server down). -/
def netDown : Net :=
  { healthOutcome := Except.error "ECONNREFUSED"
    postOutcome := Except.error "ECONNREFUSED" }

/-- Network behaviour: the health GET succeeds with status 200 but the POST
rejects. -/
def netPostFail : Net :=
  { healthOutcome := Except.ok { status := 200, body := Except.ok Json.null }
    postOutcome := Except.error "connect ECONNREFUSED 127.0.0.1:8581" }

/-- Network behaviour: health GET and POST both resolve with status 200, but
the POST response body is not valid JSON, so `response.json()` rejects. -/
def netBadJson : Net :=
  { healthOutcome := Except.ok { status := 200, body := Except.ok Json.null }
    postOutcome := Except.ok { status := 200, body := Except.error "invalid json response body" } }

lemma toList_append (a b : String) : (a ++ b).toList = a.toList ++ b.toList := rfl

lemma suffix_append_iff_of_length (x l c : List Char) (h : c.length ≤ l.length) :
    c <:+ x ++ l ↔ c <:+ l := by
  rw [← List.reverse_prefix, ← List.reverse_prefix, List.reverse_append]
  exact List.isPrefix_append_of_length (by simpa using h)

lemma strEndsWith_append (a b c : String) (h : c.toList.length ≤ b.toList.length) :
    strEndsWith (a ++ b) c = strEndsWith b c := by
  unfold strEndsWith
  exact decide_eq_decide.2 (by rw [toList_append]; exact suffix_append_iff_of_length _ _ _ h)

lemma strContains_append_right (a b n : String) (h : strContains b n = true) :
    strContains (a ++ b) n = true := by
  unfold strContains at h ⊢
  rw [toList_append]
  exact decide_eq_true ((of_decide_eq_true h).trans (List.suffix_append a.toList b.toList).isInfix)

/-- C6: for any configuration, with SQL text set (any text, any stored path)
and extra-config path "cfg.yml", `getLintURL` returns the server address
followed by `/lint?&extra_config_path=cfg.yml`; the URL ends with that
string (the leading-`&` quirk reproduced exactly), and the whole query part
after the host carries no `sql_path` parameter. -/
theorem getLintURL_sqlText_extraConfig (cfg : Config) (s : String) (p : Option String) :
    (DbtInterface.mk (some s) p "cfg.yml").getLintURL cfg
        = serverAddress cfg ++ "/lint?&extra_config_path=cfg.yml" ∧
    strEndsWith ((DbtInterface.mk (some s) p "cfg.yml").getLintURL cfg)
        "/lint?&extra_config_path=cfg.yml" = true ∧
    strContains "/lint?&extra_config_path=cfg.yml" "sql_path" = false := by
  have he : (DbtInterface.mk (some s) p "cfg.yml").getLintURL cfg
      = serverAddress cfg ++ "/lint?&extra_config_path=cfg.yml" := by
    unfold DbtInterface.getLintURL
    simp [String.append_assoc]
  refine ⟨he, ?_, by decide⟩
  rw [he, strEndsWith_append]
  · decide
  · decide

/-- C7: for any configuration, with SQL text undefined, SQL path
"models/a.sql" and empty extra-config path, `getLintURL` returns exactly
`http://<host>:<port>/lint?sql_path=models/a.sql`, which does not end with
`&`. -/
theorem getLintURL_pathMode (cfg : Config) :
    (DbtInterface.mk none (some "models/a.sql") "").getLintURL cfg
        = serverAddress cfg ++ "/lint?sql_path=models/a.sql" ∧
    strEndsWith ((DbtInterface.mk none (some "models/a.sql") "").getLintURL cfg) "&" = false := by
  have he : (DbtInterface.mk none (some "models/a.sql") "").getLintURL cfg
      = serverAddress cfg ++ "/lint?sql_path=models/a.sql" := by
    unfold DbtInterface.getLintURL
    simp [interpolate, String.append_assoc]
  refine ⟨he, ?_⟩
  rw [he, strEndsWith_append]
  · decide
  · decide

/-- C10: for any configuration, with both SQL text and SQL path undefined
and empty extra-config path, `getLintURL` and `getFormatURL` still return a
URL, and the missing path is interpolated as the literal text "undefined",
so both URLs contain `sql_path=undefined`. -/
theorem getURL_undefined_interpolation (cfg : Config) :
    (DbtInterface.mk none none "").getLintURL cfg
        = serverAddress cfg ++ "/lint?sql_path=undefined" ∧
    (DbtInterface.mk none none "").getFormatURL cfg
        = serverAddress cfg ++ "/format?sql_path=undefined" ∧
    strContains ((DbtInterface.mk none none "").getLintURL cfg) "sql_path=undefined" = true ∧
    strContains ((DbtInterface.mk none none "").getFormatURL cfg) "sql_path=undefined" = true := by
  have hl : (DbtInterface.mk none none "").getLintURL cfg
      = serverAddress cfg ++ "/lint?sql_path=undefined" := by
    unfold DbtInterface.getLintURL
    simp [interpolate, String.append_assoc]
  have hf : (DbtInterface.mk none none "").getFormatURL cfg
      = serverAddress cfg ++ "/format?sql_path=undefined" := by
    unfold DbtInterface.getFormatURL
    simp [interpolate, String.append_assoc]
  refine ⟨hl, hf, ?_, ?_⟩
  · rw [hl]
    exact strContains_append_right _ _ _ (by decide)
  · rw [hf]
    exact strContains_append_right _ _ _ (by decide)

/-- C8: for every instance, configuration, network behaviour and timer
handle, `healthCheck` resolves to a boolean (it never throws), and it
resolves to `true` exactly when the GET to `/health` resolves with HTTP
status 200; any non-200 status or thrown error yields `false`. -/
theorem healthCheck_boolean (self : DbtInterface) (cfg : Config) (net : Net) (tid : Nat) :
    (∃ b, (self.healthCheck cfg net tid).1 = Except.ok b) ∧
    ((self.healthCheck cfg net tid).1 = Except.ok true
      ↔ ∃ r, net.healthOutcome = Except.ok r ∧ r.status = 200) := by
  rcases hnet : net.healthOutcome with e | r
  · refine ⟨⟨false, by simp [DbtInterface.healthCheck, hnet]⟩, ?_⟩
    simp [DbtInterface.healthCheck, hnet]
  · by_cases hs : r.status = 200
    · refine ⟨⟨true, by simp [DbtInterface.healthCheck, hnet, hs]⟩, ?_⟩
      simp [DbtInterface.healthCheck, hnet, hs]
    · refine ⟨⟨false, by simp [DbtInterface.healthCheck, hnet, hs]⟩, ?_⟩
      simp [DbtInterface.healthCheck, hnet, hs]

/-- C1: whenever the health check resolves `false`, `lint` and `format`
both return exactly the `projectNotRegisteredError` payload (code
CompileSqlFailure, the fixed message, empty string in the `error` detail
field) and issue no POST request. -/
theorem lint_format_unhealthy (self : DbtInterface) (cfg : Config) (net : Net) (timeout : Nat)
    (h : (self.healthCheck cfg net 0).1 = Except.ok false) :
    (self.lint cfg net timeout).1
        = Except.ok (ServerReply.errorContainer projectNotRegisteredError) ∧
    (self.format cfg net timeout).1
        = Except.ok (ServerReply.errorContainer projectNotRegisteredError) ∧
    countPOST (self.lint cfg net timeout).2 = 0 ∧
    countPOST (self.format cfg net timeout).2 = 0 ∧
    projectNotRegisteredError.error.code = DbtInterfaceErrorCode.CompileSqlFailure ∧
    projectNotRegisteredError.error.message
      = "Sqlfluff currently unavailable. Check that your project does not contain compilation errors." ∧
    projectNotRegisteredError.error.data = [("error", DbtDatumValue.str "")] := by
  rcases hnet : net.healthOutcome with e | r
  · refine ⟨?_, ?_, ?_, ?_, rfl, rfl, rfl⟩ <;>
      simp [DbtInterface.lint, DbtInterface.format, DbtInterface.healthCheck, hnet, countPOST]
  · by_cases hs : r.status = 200
    · exfalso
      simp [DbtInterface.healthCheck, hnet, hs] at h
    · refine ⟨?_, ?_, ?_, ?_, rfl, rfl, rfl⟩ <;>
        simp [DbtInterface.lint, DbtInterface.format, DbtInterface.healthCheck, hnet, hs, countPOST]

/-- Witness for C1: with the server down, `lint` returns the fixed payload
and its trace contains no POST. -/
theorem lint_format_unhealthy_witness :
    (dbt0.lint cfg0 netDown 25000).1
        = Except.ok (ServerReply.errorContainer projectNotRegisteredError) ∧
    countPOST (dbt0.lint cfg0 netDown 25000).2 = 0 :=
  ⟨(lint_format_unhealthy dbt0 cfg0 netDown 25000 rfl).1,
   (lint_format_unhealthy dbt0 cfg0 netDown 25000 rfl).2.2.1⟩

/-- C3: when the health check passes and the POST resolves with a body that
parses as the JSON value `j`, `lint` and `format` return exactly `j`,
untransformed and unvalidated. -/
theorem lint_format_passthrough (self : DbtInterface) (cfg : Config) (net : Net)
    (timeout : Nat) (r : Response) (j : Json)
    (hh : (self.healthCheck cfg net 0).1 = Except.ok true)
    (hp : net.postOutcome = Except.ok r)
    (hb : r.body = Except.ok j) :
    (self.lint cfg net timeout).1 = Except.ok (ServerReply.parsed j) ∧
    (self.format cfg net timeout).1 = Except.ok (ServerReply.parsed j) := by
  rcases hnet : net.healthOutcome with e | hr
  · exfalso
    simp [DbtInterface.healthCheck, hnet] at hh
  · by_cases hs : hr.status = 200
    · constructor <;>
        simp [DbtInterface.lint, DbtInterface.format, DbtInterface.healthCheck,
          hnet, hs, hp, hb]
    · exfalso
      simp [DbtInterface.healthCheck, hnet, hs] at hh

/-- Witness for C3: a POST resolving with status 200 and body
`{"result":"ok"}` makes `format` (and `lint`) return `{"result":"ok"}`. -/
theorem lint_format_passthrough_witness :
    (dbt0.lint cfg0 netOK 25000).1
        = Except.ok (ServerReply.parsed (Json.obj [("result", Json.str "ok")])) ∧
    (dbt0.format cfg0 netOK 25000).1
        = Except.ok (ServerReply.parsed (Json.obj [("result", Json.str "ok")])) :=
  lint_format_passthrough dbt0 cfg0 netOK 25000 okResultResponse
    (Json.obj [("result", Json.str "ok")]) rfl rfl rfl

/-- Counterexample to C2 as stated: with host "localhost" and port 8581,
when the health check passes and the POST rejects, the returned payload's
`error.message` field is the fixed string "Query failed to reach dbt sync
server.", which contains neither the configured host nor the configured
port; the host-and-port hint lives in the `error.data.error` field instead. -/
theorem lint_message_lacks_hostport :
    (dbt0.lint cfg0 netPostFail 25000).1
        = Except.ok (ServerReply.errorContainer (failedToReachServerError cfg0)) ∧
    (failedToReachServerError cfg0).error.message
        = "Query failed to reach dbt sync server." ∧
    strContains (failedToReachServerError cfg0).error.message "localhost" = false ∧
    strContains (failedToReachServerError cfg0).error.message "8581" = false := by
  refine ⟨rfl, rfl, ?_, ?_⟩ <;> decide

lemma strContains_middle (a b c : String) : strContains (a ++ b ++ c) b = true := by
  unfold strContains
  rw [toList_append, toList_append]
  exact decide_eq_true (List.infix_append _ _ _)

/-- C2 amended: when the health check passes and the POST rejects or aborts,
`lint` and `format` return the `failedToReachServerError` payload, whose
`error.code` is FailedToReachServer and whose `error.data.error` hint (not
the fixed `message` field) contains the configured host and port. -/
theorem lint_format_postFailure (self : DbtInterface) (cfg : Config) (net : Net)
    (timeout : Nat)
    (hh : (self.healthCheck cfg net 0).1 = Except.ok true)
    (hp : ∃ err, net.postOutcome = Except.error err) :
    (self.lint cfg net timeout).1
        = Except.ok (ServerReply.errorContainer (failedToReachServerError cfg)) ∧
    (self.format cfg net timeout).1
        = Except.ok (ServerReply.errorContainer (failedToReachServerError cfg)) ∧
    (failedToReachServerError cfg).error.code = DbtInterfaceErrorCode.FailedToReachServer ∧
    (failedToReachServerError cfg).error.data
        = [("error", DbtDatumValue.str (serverHint cfg))] ∧
    strContains (serverHint cfg) cfg.host = true ∧
    strContains (serverHint cfg) (toString cfg.port) = true := by
  obtain ⟨err, hp⟩ := hp
  rcases hnet : net.healthOutcome with e | hr
  · exfalso
    simp [DbtInterface.healthCheck, hnet] at hh
  · by_cases hs : hr.status = 200
    · refine ⟨?_, ?_, rfl, rfl, ?_, ?_⟩
      · simp [DbtInterface.lint, DbtInterface.healthCheck, hnet, hs, hp]
      · simp [DbtInterface.format, DbtInterface.healthCheck, hnet, hs, hp]
      · have hrw : serverHint cfg
            = "Is the server listening on the http://" ++ cfg.host
              ++ ((":" ++ toString cfg.port) ++ " address?") := by
          simp [serverHint, serverAddress, ← String.append_assoc]
        rw [hrw]
        exact strContains_middle _ _ _
      · have hrw : serverHint cfg
            = ("Is the server listening on the http://" ++ cfg.host ++ ":")
              ++ toString cfg.port ++ " address?" := by
          simp [serverHint, serverAddress, ← String.append_assoc]
        rw [hrw]
        exact strContains_middle _ _ _
    · exfalso
      simp [DbtInterface.healthCheck, hnet, hs] at hh

/-- Witness for C2 amended: at the concrete configuration, a rejected POST
yields the failed-to-reach-server payload and the hint carries the host. -/
theorem lint_format_postFailure_witness :
    (dbt0.lint cfg0 netPostFail 25000).1
        = Except.ok (ServerReply.errorContainer (failedToReachServerError cfg0)) ∧
    strContains (serverHint cfg0) "localhost" = true ∧
    strContains (serverHint cfg0) "8581" = true :=
  ⟨(lint_format_postFailure dbt0 cfg0 netPostFail 25000 rfl ⟨_, rfl⟩).1,
   (lint_format_postFailure dbt0 cfg0 netPostFail 25000 rfl ⟨_, rfl⟩).2.2.2.2.1,
   (lint_format_postFailure dbt0 cfg0 netPostFail 25000 rfl ⟨_, rfl⟩).2.2.2.2.2⟩

/-- Counterexample to C4 as stated: there is a network behaviour — the
health GET and the POST both resolve with status 200 but the POST body is
not valid JSON — under which `lint` and `format` reject: the un-guarded
`await response.json()` on the success path lets the parse exception escape
to the caller. -/
theorem lint_format_throw_on_invalid_json :
    (dbt0.lint cfg0 netBadJson 25000).1 = Except.error "invalid json response body" ∧
    (dbt0.format cfg0 netBadJson 25000).1 = Except.error "invalid json response body" :=
  ⟨rfl, rfl⟩

/-- C4 amended: `healthCheck` never lets an exception escape, and `lint` and
`format` never let one escape provided that whenever the POST resolves its
body parses as JSON; the one escape route is the `response.json()` rejection
on a successful POST whose body is not valid JSON. -/
theorem operations_absorb_failures (self : DbtInterface) (cfg : Config) (net : Net)
    (timeout tid : Nat)
    (hbody : ∀ r, net.postOutcome = Except.ok r → ∃ j, r.body = Except.ok j) :
    (∃ b, (self.healthCheck cfg net tid).1 = Except.ok b) ∧
    (∃ v, (self.lint cfg net timeout).1 = Except.ok v) ∧
    (∃ v, (self.format cfg net timeout).1 = Except.ok v) := by
  rcases hnet : net.healthOutcome with e | hr
  · exact ⟨⟨false, by simp [DbtInterface.healthCheck, hnet]⟩,
      ⟨ServerReply.errorContainer projectNotRegisteredError,
        by simp [DbtInterface.lint, DbtInterface.healthCheck, hnet]⟩,
      ⟨ServerReply.errorContainer projectNotRegisteredError,
        by simp [DbtInterface.format, DbtInterface.healthCheck, hnet]⟩⟩
  · by_cases hs : hr.status = 200
    · rcases hpost : net.postOutcome with err | pr
      · exact ⟨⟨true, by simp [DbtInterface.healthCheck, hnet, hs]⟩,
          ⟨ServerReply.errorContainer (failedToReachServerError cfg),
            by simp [DbtInterface.lint, DbtInterface.healthCheck, hnet, hs, hpost]⟩,
          ⟨ServerReply.errorContainer (failedToReachServerError cfg),
            by simp [DbtInterface.format, DbtInterface.healthCheck, hnet, hs, hpost]⟩⟩
      · obtain ⟨j, hj⟩ := hbody pr hpost
        exact ⟨⟨true, by simp [DbtInterface.healthCheck, hnet, hs]⟩,
          ⟨ServerReply.parsed j,
            by simp [DbtInterface.lint, DbtInterface.healthCheck, hnet, hs, hpost, hj]⟩,
          ⟨ServerReply.parsed j,
            by simp [DbtInterface.format, DbtInterface.healthCheck, hnet, hs, hpost, hj]⟩⟩
    · exact ⟨⟨false, by simp [DbtInterface.healthCheck, hnet, hs]⟩,
        ⟨ServerReply.errorContainer projectNotRegisteredError,
          by simp [DbtInterface.lint, DbtInterface.healthCheck, hnet, hs]⟩,
        ⟨ServerReply.errorContainer projectNotRegisteredError,
          by simp [DbtInterface.format, DbtInterface.healthCheck, hnet, hs]⟩⟩

/-- Witness for C4 amended: on a fully successful exchange every operation
resolves with a value. -/
theorem operations_absorb_failures_witness :
    (∃ b, (dbt0.healthCheck cfg0 netOK 0).1 = Except.ok b) ∧
    (∃ v, (dbt0.lint cfg0 netOK 25000).1 = Except.ok v) ∧
    (∃ v, (dbt0.format cfg0 netOK 25000).1 = Except.ok v) :=
  operations_absorb_failures dbt0 cfg0 netOK 25000 0
    (fun r h => ⟨Json.obj [("result", Json.str "ok")], by injection h with h2; rw [← h2]; rfl⟩)

/-- C5: in every invocation of `healthCheck`, `lint` and `format`, and for
every timer handle, at most one timer with that handle is created and the
number of clears of that handle equals the number of creations: every timer
created is cleared exactly once, on every exit path. -/
theorem timers_cleared_once (self : DbtInterface) (cfg : Config) (net : Net)
    (timeout tid i : Nat) :
    countTimerSet i (self.healthCheck cfg net tid).2 ≤ 1 ∧
    countTimerCleared i (self.healthCheck cfg net tid).2
        = countTimerSet i (self.healthCheck cfg net tid).2 ∧
    countTimerSet i (self.lint cfg net timeout).2 ≤ 1 ∧
    countTimerCleared i (self.lint cfg net timeout).2
        = countTimerSet i (self.lint cfg net timeout).2 ∧
    countTimerSet i (self.format cfg net timeout).2 ≤ 1 ∧
    countTimerCleared i (self.format cfg net timeout).2
        = countTimerSet i (self.format cfg net timeout).2 := by
  rcases hnet : net.healthOutcome with e | hr
  · refine ⟨?_, ?_, ?_, ?_, ?_, ?_⟩ <;>
      simp [DbtInterface.healthCheck, DbtInterface.lint, DbtInterface.format, hnet,
        countTimerSet, countTimerCleared] <;>
      split_ifs <;> omega
  · by_cases hs : hr.status = 200
    · rcases hpost : net.postOutcome with err | pr
      · refine ⟨?_, ?_, ?_, ?_, ?_, ?_⟩ <;>
          simp [DbtInterface.healthCheck, DbtInterface.lint, DbtInterface.format, hnet, hs,
            hpost, countTimerSet, countTimerCleared] <;>
          split_ifs <;> omega
      · rcases hbody : pr.body with berr | j <;>
          refine ⟨?_, ?_, ?_, ?_, ?_, ?_⟩ <;>
          simp [DbtInterface.healthCheck, DbtInterface.lint, DbtInterface.format, hnet, hs,
            hpost, hbody, countTimerSet, countTimerCleared] <;>
          split_ifs <;> omega
    · refine ⟨?_, ?_, ?_, ?_, ?_, ?_⟩ <;>
        simp [DbtInterface.healthCheck, DbtInterface.lint, DbtInterface.format, hnet, hs,
          countTimerSet, countTimerCleared] <;>
        split_ifs <;> omega

/-- C9: `lint` and `format` write to the output channel exactly on the
failure paths: a log line appears in the trace if and only if the health
check resolved false or the POST rejected; on the success path nothing is
written. -/
theorem logs_only_on_failure (self : DbtInterface) (cfg : Config) (net : Net)
    (timeout : Nat) :
    (hasLog (self.lint cfg net timeout).2 = true
      ↔ ((self.healthCheck cfg net 0).1 = Except.ok false
          ∨ ∃ e, net.postOutcome = Except.error e)) ∧
    (hasLog (self.format cfg net timeout).2 = true
      ↔ ((self.healthCheck cfg net 0).1 = Except.ok false
          ∨ ∃ e, net.postOutcome = Except.error e)) := by
  rcases hnet : net.healthOutcome with e | hr
  · constructor <;>
      simp [DbtInterface.lint, DbtInterface.format, DbtInterface.healthCheck, hnet, hasLog]
  · by_cases hs : hr.status = 200
    · rcases hpost : net.postOutcome with err | pr
      · constructor <;>
          simp [DbtInterface.lint, DbtInterface.format, DbtInterface.healthCheck, hnet, hs,
            hpost, hasLog]
      · rcases hbody : pr.body with berr | j <;>
          constructor <;>
          simp [DbtInterface.lint, DbtInterface.format, DbtInterface.healthCheck, hnet, hs,
            hpost, hbody, hasLog]
    · constructor <;>
        simp [DbtInterface.lint, DbtInterface.format, DbtInterface.healthCheck, hnet, hs,
          hasLog]
